import Mathlib

/-!
Verification of the VirtualBox VM management script (`src/vm_runner.py`).

Shallow embedding conventions:
* Python strings are `List Char`.
* One external process invocation is an oracle value of type `CmdOutcome`
  (`completed code stdout stderr` models a finished `subprocess.run`;
  `timedOut` models `subprocess.TimeoutExpired`; `raised` models any other
  exception escaping `subprocess.run`).
* Each `VMManager` method becomes a function from its arguments and the
  oracle answers of the invocations it can make to
  `result × List Call`, where the `List Call` is the ordered trace of
  external commands actually issued.
* `self.vboxmanage_path` is passed explicitly as `Option (List Char)`
  (`none` models the degraded mode after failed discovery).
-/

namespace VmRunner

/-- The whitespace characters removed by Python `str.strip()` (ASCII part). -/
def wsChar (c : Char) : Bool :=
  decide (c = ' ') || decide (c = '\t') || decide (c = '\n') || decide (c = '\r') ||
  decide (c = '\x0b') || decide (c = '\x0c')

/-- Python `str.strip()`: remove leading and trailing whitespace. -/
def pstrip (l : List Char) : List Char :=
  ((l.dropWhile wsChar).reverse.dropWhile wsChar).reverse

/-- Test for the `'"'` character, for Python `str.strip('"')`. -/
def quoteChar (c : Char) : Bool := decide (c = '"')

/-- Python `str.strip('"')`: remove leading and trailing double quotes. -/
def stripQuotes (l : List Char) : List Char :=
  ((l.dropWhile quoteChar).reverse.dropWhile quoteChar).reverse

/-- Python `c in line` for a single character. -/
def containsC (c : Char) : List Char → Bool
  | [] => false
  | a :: t => if a = c then true else containsC c t

/-- The characters before the first occurrence of `c` (all of `l` if absent). -/
def takeUntil (c : Char) : List Char → List Char
  | [] => []
  | a :: t => if a = c then [] else a :: takeUntil c t

/-- The characters after the first occurrence of `c` (empty if absent). -/
def afterFirst (c : Char) : List Char → List Char
  | [] => []
  | a :: t => if a = c then t else afterFirst c t

/-- The first quote-delimited substring of a line: the characters between the
first `'"'` and the following `'"'` (or the end of the line). -/
def firstQuoted (l : List Char) : List Char :=
  takeUntil '"' (afterFirst '"' l)

/-- Python `str.split(sep)` for a one-character separator. -/
def splitChar (sep : Char) : List Char → List (List Char)
  | [] => [[]]
  | a :: t =>
    if a = sep then [] :: splitChar sep t
    else
      match splitChar sep t with
      | [] => [[a]]
      | h :: r => (a :: h) :: r

/-- Boolean list-prefix test (over explicit character equality). -/
def isPrefixOfL : List Char → List Char → Bool
  | [], _ => true
  | _ :: _, [] => false
  | a :: as, b :: bs => if a = b then isPrefixOfL as bs else false

/-- Split at the first occurrence of the (non-empty) separator `sep`:
`some (before, after)` when `sep` occurs, `none` otherwise. -/
def splitFirst (sep : List Char) : List Char → Option (List Char × List Char)
  | [] => none
  | a :: t =>
    if isPrefixOfL sep (a :: t) then some ([], List.drop sep.length (a :: t))
    else
      match splitFirst sep t with
      | some (b, r) => some (a :: b, r)
      | none => none

/-- Python `sep in s` for a multi-character separator. -/
def occursB (sep l : List Char) : Bool := (splitFirst sep l).isSome

/-- Python `s.split(sep)[1]`: the piece between the first occurrence of `sep`
and the next occurrence (or the end). Defaults to `[]` when `sep` is absent
(the script only evaluates this under an `occursB` guard). -/
def pieceAfterFirst (sep l : List Char) : List Char :=
  match splitFirst sep l with
  | none => []
  | some (_, rest) =>
    match splitFirst sep rest with
    | none => rest
    | some (mid, _) => mid

/-- Lowercase a string, Python `str.lower()` (ASCII part). -/
def lowerL (l : List Char) : List Char := l.map Char.toLower

-- ------------------------------------------------------------------
-- String constants of vm_runner.py
-- ------------------------------------------------------------------

def runningL : List Char := "running".toList

def nhuL : List Char := "nhu".toList

def shutdownMsgL : List Char := "System will be shutdown".toList

def markerL : List Char := "No value set!".toList

def sepV : List Char := "Value: ".toList

def vmstateEq : List Char := "VMState=".toList

def vbox_path : List Char := "C:\\Program Files\\Oracle\\VirtualBox\\VBoxManage.exe".toList

def pathNameL : List Char := "VBoxManage".toList

def usrBinL : List Char := "/usr/bin/VBoxManage".toList

def common_paths : List (List Char) :=
  [vbox_path,
   "C:\\Program Files (x86)\\Oracle\\VirtualBox\\VBoxManage.exe".toList,
   usrBinL,
   "/usr/local/bin/VBoxManage".toList,
   "/Applications/VirtualBox.app/Contents/MacOS/VBoxManage".toList]

def defaultCtl : List Char := "IDE Controller".toList

def scnL : List Char := "storagecontrollername".toList

def ideL : List Char := "ide".toList

def sataL : List Char := "sata".toList

def port1 : List Char := ['1']

def port0 : List Char := ['0']

-- ------------------------------------------------------------------
-- Oracle and trace types
-- ------------------------------------------------------------------

/-- Outcome of one `subprocess.run` invocation. -/
inductive CmdOutcome
  | completed (code : Int) (out err : List Char)
  | timedOut
  | raised
  deriving DecidableEq

/-- Medium argument of a `storageattach` command. -/
inductive Medium
  | iso
  | empty
  deriving DecidableEq

/-- One external command issued by the script, with the arguments that the
claims talk about. -/
inductive Call
  | versionProbe (cand : List Char)
  | listVms
  | startvm (vm : List Char) (headless : Bool)
  | controlvm (vm : List Char) (graceful : Bool)
  | guestpropGet (vm : List Char)
  | showvminfo (vm : List Char)
  | storageattach (vm ctl port : List Char) (medium : Medium)
  | guestcontrolWall (vm user msg : List Char)
  | sshWall (user ip msg : List Char)
  | openTerminalWt (vm user ip : List Char)
  deriving DecidableEq

/-- Outcome of a `--version` probe during binary discovery.
`nonzero` covers `CalledProcessError` (and, for the PATH candidate, the
`FileNotFoundError` that the code handles identically). -/
inductive ProbeOutcome
  | ok
  | nonzero
  | timeout
  deriving DecidableEq

/-- Oracle for `find_vboxmanage`: what `os.path.exists` answers and how the
`--version` probe of each candidate ends. -/
structure LocEnv where
  pathExists : List Char → Bool
  probe : List Char → ProbeOutcome

/-- Oracle for `install_guest_additions`: existence of the Guest Additions
ISO next to the binary, plus one `CmdOutcome` per invocation site. -/
structure InstEnv where
  isoExists : Bool
  info : CmdOutcome
  attach1 : CmdOutcome
  attach0 : CmdOutcome
  addDrive : CmdOutcome
  attachRetry : CmdOutcome

/-- Oracle for `start_vm_and_open_a_terminal`: outcomes of its two status
queries, of the start command, of the IP query inside `open_terminal`, and
whether launching Windows Terminal succeeds. -/
structure SvoEnv where
  s1 : CmdOutcome
  startO : CmdOutcome
  s2 : CmdOutcome
  ipO : CmdOutcome
  wtOk : Bool

-- ------------------------------------------------------------------
-- Output parsing (pure parts of the methods)
-- ------------------------------------------------------------------

/-- The loop body of `list_vms` (lines 152-159): keep, in order, the
`split('"')[1]` of every non-blank line containing a `'"'`. -/
def vm_names_of_lines : List (List Char) → List (List Char)
  | [] => []
  | l :: rest =>
    if pstrip l ≠ [] then
      if containsC '"' l then ((splitChar '"' l).getD 1 []) :: vm_names_of_lines rest
      else vm_names_of_lines rest
    else vm_names_of_lines rest

/-- Name extraction of `list_vms` from the raw stdout. -/
def parse_vm_list (out : List Char) : List (List Char) :=
  vm_names_of_lines (splitChar '\n' (pstrip out))

/-- The loop of `get_vm_status` (lines 295-299): value of the first line
starting with `VMState=`, with surrounding quotes stripped. -/
def vm_state_of_lines : List (List Char) → Option (List Char)
  | [] => none
  | l :: rest =>
    if isPrefixOfL vmstateEq l then some (stripQuotes ((splitChar '=' l).getD 1 []))
    else vm_state_of_lines rest

/-- State extraction of `get_vm_status` from the raw stdout. -/
def parse_vm_state (out : List Char) : Option (List Char) :=
  vm_state_of_lines (splitChar '\n' (pstrip out))

/-- The three parse branches of `get_vm_ip` (lines 254-268). The Python
code returns `None` for both `noIpAvailable` and `parseFailure` but takes
observably distinct branches (distinct log diagnostics); `ipReturn` maps
the branch outcome to the method's actual return value. -/
inductive IpParseOutcome
  | noIpAvailable
  | value (ip : List Char)
  | parseFailure
  deriving DecidableEq

/-- IP extraction of `get_vm_ip`: strip the output; the literal marker
`No value set!` means no IP; else take `split("Value: ")[1].strip()`;
else the output is unparseable. -/
def parse_guest_ip (raw : List Char) : IpParseOutcome :=
  let o := pstrip raw
  if occursB markerL o then .noIpAvailable
  else if occursB sepV o then .value (pstrip (pieceAfterFirst sepV o))
  else .parseFailure

/-- The Python return value of `get_vm_ip` for each parse branch. -/
def ipReturn : IpParseOutcome → Option (List Char)
  | .noIpAvailable => none
  | .value ip => some ip
  | .parseFailure => none

/-- Controller scan of `install_guest_additions` (lines 345-349): result of
the first line whose lowercase form contains `storagecontrollername` and
`ide` or `sata`. -/
def lineMatches (l : List Char) : Bool :=
  occursB scnL (lowerL l) && (occursB ideL (lowerL l) || occursB sataL (lowerL l))

/-- Outcome of the controller scan: `found` a value, `noMatch` (the code
falls back to `IDE Controller`), or `crash` (a matching line without `=`
raises `IndexError`, caught by the outer handler). -/
inductive CtrlResult
  | found (c : List Char)
  | noMatch
  | crash
  deriving DecidableEq

def find_ctrl : List (List Char) → CtrlResult
  | [] => .noMatch
  | l :: rest =>
    if lineMatches l then
      match splitChar '=' l with
      | _ :: v :: _ => .found (stripQuotes v)
      | _ => .crash
    else find_ctrl rest

/-- Controller name used by `install_guest_additions` given the info-command
stdout: `none` models the `IndexError` path (overall failure), otherwise the
found name or the default `IDE Controller`. -/
def controller_of (out : List Char) : Option (List Char) :=
  match find_ctrl (splitChar '\n' out) with
  | .crash => none
  | .noMatch => some defaultCtl
  | .found c => some c

-- ------------------------------------------------------------------
-- VMManager methods
-- ------------------------------------------------------------------

/-- `VMManager.find_vboxmanage` (lines 67-135): fixed well-known path
(probed only if it exists), then the PATH name (always probed; its `except`
clause does not catch `TimeoutExpired`, so a timeout there propagates to the
outer handler and the search returns `None`), then the common paths (each
probed if it exists; non-zero exit and timeout both continue). -/
def probeCommon (env : LocEnv) : List (List Char) → Option (List Char) × List Call
  | [] => (none, [])
  | p :: rest =>
    if env.pathExists p then
      match env.probe p with
      | .ok => (some p, [Call.versionProbe p])
      | .nonzero =>
        let r := probeCommon env rest
        (r.1, Call.versionProbe p :: r.2)
      | .timeout =>
        let r := probeCommon env rest
        (r.1, Call.versionProbe p :: r.2)
    else probeCommon env rest

def find_vboxmanage (env : LocEnv) : Option (List Char) × List Call :=
  let t1 : List Call := if env.pathExists vbox_path then [Call.versionProbe vbox_path] else []
  if env.pathExists vbox_path && decide (env.probe vbox_path = ProbeOutcome.ok) then
    (some vbox_path, t1)
  else
    let t2 := t1 ++ [Call.versionProbe pathNameL]
    match env.probe pathNameL with
    | .ok => (some pathNameL, t2)
    | .timeout => (none, t2)
    | .nonzero =>
      let r := probeCommon env common_paths
      (r.1, t2 ++ r.2)

/-- `VMManager.list_vms` (lines 137-172). -/
def list_vms (path : Option (List Char)) (env : CmdOutcome) : List (List Char) × List Call :=
  match path with
  | none => ([], [])
  | some _ =>
    match env with
    | .completed code out _ =>
      if code = 0 then (parse_vm_list out, [Call.listVms]) else ([], [Call.listVms])
    | .timedOut => ([], [Call.listVms])
    | .raised => ([], [Call.listVms])

/-- `VMManager.start_vm` (lines 174-202). -/
def start_vm (path : Option (List Char)) (vm : List Char) (headless : Bool) (env : CmdOutcome) :
    Bool × List Call :=
  match path with
  | none => (false, [])
  | some _ =>
    match env with
    | .completed code _ _ => (decide (code = 0), [Call.startvm vm headless])
    | .timedOut => (false, [Call.startvm vm headless])
    | .raised => (false, [Call.startvm vm headless])

/-- `VMManager.broadcast_message_to_vm` (lines 482-515): `guestcontrol` run
of `wall`, `check=False`, success iff the return code is 0. -/
def broadcast_message_to_vm (path : Option (List Char)) (vm user msg : List Char)
    (env : CmdOutcome) : Bool × List Call :=
  match path with
  | none => (false, [])
  | some _ =>
    match env with
    | .completed code _ _ => (decide (code = 0), [Call.guestcontrolWall vm user msg])
    | .timedOut => (false, [Call.guestcontrolWall vm user msg])
    | .raised => (false, [Call.guestcontrolWall vm user msg])

/-- `VMManager.stop_vm` (lines 204-236): broadcast a fixed warning as user
`nhu`, ignoring its result, then `controlvm` with `acpipowerbutton` or
`poweroff`. -/
def stop_vm (path : Option (List Char)) (vm : List Char) (graceful : Bool)
    (benv penv : CmdOutcome) : Bool × List Call :=
  match path with
  | none => (false, [])
  | some p =>
    let b := broadcast_message_to_vm (some p) vm nhuL shutdownMsgL benv
    let tr := b.2 ++ [Call.controlvm vm graceful]
    match penv with
    | .completed code _ _ => (decide (code = 0), tr)
    | .timedOut => (false, tr)
    | .raised => (false, tr)

/-- `VMManager.get_vm_ip` (lines 238-278). -/
def get_vm_ip (path : Option (List Char)) (vm : List Char) (env : CmdOutcome) :
    Option (List Char) × List Call :=
  match path with
  | none => (none, [])
  | some _ =>
    match env with
    | .completed code out _ =>
      if code = 0 then (ipReturn (parse_guest_ip out), [Call.guestpropGet vm])
      else (none, [Call.guestpropGet vm])
    | .timedOut => (none, [Call.guestpropGet vm])
    | .raised => (none, [Call.guestpropGet vm])

/-- `VMManager.get_vm_status` (lines 280-312). -/
def get_vm_status (path : Option (List Char)) (vm : List Char) (env : CmdOutcome) :
    Option (List Char) × List Call :=
  match path with
  | none => (none, [])
  | some _ =>
    match env with
    | .completed code out _ =>
      if code = 0 then (parse_vm_state out, [Call.showvminfo vm])
      else (none, [Call.showvminfo vm])
    | .timedOut => (none, [Call.showvminfo vm])
    | .raised => (none, [Call.showvminfo vm])

/-- `VMManager.install_guest_additions` (lines 319-438). Attach attempts on
ports "1" then "0" continue past `CalledProcessError` only; a
`TimeoutExpired` (or other exception) from any invocation reaches the outer
handlers and fails the whole saga. -/
def install_guest_additions (path : Option (List Char)) (vm : List Char) (env : InstEnv) :
    Bool × List Call :=
  match path with
  | none => (false, [])
  | some _ =>
    if env.isoExists then
      match env.info with
      | .timedOut => (false, [Call.showvminfo vm])
      | .raised => (false, [Call.showvminfo vm])
      | .completed code out _ =>
        if code = 0 then
          match controller_of out with
          | none => (false, [Call.showvminfo vm])
          | some ctl =>
            let a1 := Call.storageattach vm ctl port1 Medium.iso
            let a0 := Call.storageattach vm ctl port0 Medium.iso
            let ad := Call.storageattach vm ctl port1 Medium.empty
            let t0 := [Call.showvminfo vm]
            match env.attach1 with
            | .timedOut => (false, t0 ++ [a1])
            | .raised => (false, t0 ++ [a1])
            | .completed c1 _ _ =>
              if c1 = 0 then (true, t0 ++ [a1])
              else
                match env.attach0 with
                | .timedOut => (false, t0 ++ [a1, a0])
                | .raised => (false, t0 ++ [a1, a0])
                | .completed c2 _ _ =>
                  if c2 = 0 then (true, t0 ++ [a1, a0])
                  else
                    match env.addDrive with
                    | .timedOut => (false, t0 ++ [a1, a0, ad])
                    | .raised => (false, t0 ++ [a1, a0, ad])
                    | .completed c3 _ _ =>
                      if c3 = 0 then
                        match env.attachRetry with
                        | .timedOut => (false, t0 ++ [a1, a0, ad, a1])
                        | .raised => (false, t0 ++ [a1, a0, ad, a1])
                        | .completed c4 _ _ =>
                          if c4 = 0 then (true, t0 ++ [a1, a0, ad, a1])
                          else (false, t0 ++ [a1, a0, ad, a1])
                      else (false, t0 ++ [a1, a0, ad])
        else (false, [Call.showvminfo vm])
    else (false, [])

/-- `VMManager.send_message_to_vm` (lines 440-480): resolve the IP via
`get_vm_ip`, fail if unavailable, else run `wall` over ssh feeding the
password on stdin (`check=False`, success iff return code 0). -/
def send_message_to_vm (path : Option (List Char)) (vm user pw msg : List Char)
    (ipEnv sshEnv : CmdOutcome) : Bool × List Call :=
  match path with
  | none => (false, [])
  | some p =>
    let r := get_vm_ip (some p) vm ipEnv
    match r.1 with
    | none => (false, r.2)
    | some ip =>
      let tr := r.2 ++ [Call.sshWall user ip msg]
      match sshEnv with
      | .completed code _ _ => (decide (code = 0), tr)
      | .timedOut => (false, tr)
      | .raised => (false, tr)

/-- `VMManager.open_terminal` (lines 517-548): resolve the IP, fail if
unavailable, else launch Windows Terminal with an ssh tab; `wtOk` is false
when `Popen` raises (`wt` missing or other error). -/
def open_terminal (path : Option (List Char)) (vm user : List Char) (ipEnv : CmdOutcome)
    (wtOk : Bool) : Bool × List Call :=
  match path with
  | none => (false, [])
  | some p =>
    let r := get_vm_ip (some p) vm ipEnv
    match r.1 with
    | none => (false, r.2)
    | some ip => (wtOk, r.2 ++ [Call.openTerminalWt vm user ip])

/-- `VMManager.start_vm_and_open_a_terminal` (lines 550-565): query status;
start headless unless already `running` (start result discarded); re-query;
return 1 if still not `running`, else open a terminal (result discarded)
and return 0. -/
def start_vm_and_open_a_terminal (path : Option (List Char)) (vm user : List Char)
    (env : SvoEnv) : Nat × List Call :=
  let q1 := get_vm_status path vm env.s1
  let t2 := if q1.1 = some runningL then [] else (start_vm path vm true env.startO).2
  let q2 := get_vm_status path vm env.s2
  if q2.1 = some runningL then
    let t4 := (open_terminal path vm user env.ipO env.wtOk).2
    (0, q1.2 ++ t2 ++ q2.2 ++ t4)
  else (1, q1.2 ++ t2 ++ q2.2)

/-- The `svo` branch of `main` (lines 728-731): `success = <returned int>`;
`if not success: exit(1)`, else `main` falls through and the process exits 0.
So the process exit status is 1 exactly when the method returned 0. -/
def svo_process_exit (path : Option (List Char)) (vm user : List Char) (env : SvoEnv) : Nat :=
  if (start_vm_and_open_a_terminal path vm user env).1 = 0 then 1 else 0

/-- Python truthiness of `args.password` (`None` and `""` are falsy). -/
def pwTruthy : Option (List Char) → Bool
  | none => false
  | some s => decide (s ≠ [])

/-- The `message` branch of `main` (lines 711-727): broadcast first; on its
failure, and only when a (truthy) password was supplied, fall back to
`send_message_to_vm` once. -/
def message_with_fallback (path : Option (List Char)) (vm user msg : List Char)
    (pw : Option (List Char)) (bEnv ipEnv sshEnv : CmdOutcome) : Bool × List Call :=
  let b := broadcast_message_to_vm path vm user msg bEnv
  if b.1 then (true, b.2)
  else if pwTruthy pw then
    let s := send_message_to_vm path vm user (pw.getD []) msg ipEnv sshEnv
    (s.1, b.2 ++ s.2)
  else (false, b.2)

/-- Success test on the outcome of the power command, as `stop_vm` computes
it (`check=True`: success iff exit code 0). -/
def powerOk : CmdOutcome → Bool
  | .completed code _ _ => decide (code = 0)
  | _ => false

/-- Trace predicate: ssh invocations of the `wall` utility. -/
def isSshWall : Call → Bool
  | .sshWall _ _ _ => true
  | _ => false

/-- Trace predicate: start commands. -/
def isStartCall : Call → Bool
  | .startvm _ _ => true
  | _ => false

/-- Trace predicate: terminal-open attempts. -/
def isTermCall : Call → Bool
  | .openTerminalWt _ _ _ => true
  | _ => false

/-- Trace predicate: guest-property (IP) queries. -/
def isIpCall : Call → Bool
  | .guestpropGet _ => true
  | _ => false

-- ------------------------------------------------------------------
-- Helper lemmas
-- ------------------------------------------------------------------

lemma splitChar_ne_nil (c : Char) (l : List Char) : splitChar c l ≠ [] := by
  induction l with
  | nil => simp [splitChar]
  | cons a t ih =>
    by_cases h : a = c
    · simp [splitChar, h]
    · simp only [splitChar, if_neg h]
      cases hs : splitChar c t with
      | nil => simp
      | cons x r => simp

lemma splitChar_headD (c : Char) (l : List Char) :
    (splitChar c l).headD [] = takeUntil c l := by
  induction l with
  | nil => rfl
  | cons a t ih =>
    by_cases h : a = c
    · simp [splitChar, takeUntil, h]
    · simp only [splitChar, takeUntil, if_neg h]
      cases hs : splitChar c t with
      | nil => exact absurd hs (splitChar_ne_nil c t)
      | cons x r =>
        rw [hs] at ih
        simpa using ih

lemma splitChar_getD_one (c : Char) (l : List Char) :
    (splitChar c l).getD 1 [] = takeUntil c (afterFirst c l) := by
  induction l with
  | nil => rfl
  | cons a t ih =>
    by_cases h : a = c
    · have hh := splitChar_headD c t
      simp only [splitChar, afterFirst, if_pos h]
      cases hs : splitChar c t with
      | nil => exact absurd hs (splitChar_ne_nil c t)
      | cons x r =>
        rw [hs] at hh
        simpa using hh
    · simp only [splitChar, afterFirst, if_neg h]
      cases hs : splitChar c t with
      | nil => exact absurd hs (splitChar_ne_nil c t)
      | cons x r =>
        rw [hs] at ih
        simpa using ih

lemma mem_dropWhile_of_not (p : Char → Bool) (c : Char) (hc : p c = false) :
    ∀ l : List Char, c ∈ l → c ∈ l.dropWhile p := by
  intro l
  induction l with
  | nil => intro h; exact absurd h (List.not_mem_nil c)
  | cons a t ih =>
    intro h
    by_cases ha : p a
    · rw [List.dropWhile_cons_of_pos ha]
      rcases List.mem_cons.mp h with rfl | hm
      · rw [hc] at ha; exact absurd ha (by simp)
      · exact ih hm
    · rwa [List.dropWhile_cons_of_neg ha]

lemma mem_pstrip_of_not_ws (c : Char) (hc : wsChar c = false) (l : List Char)
    (h : c ∈ l) : c ∈ pstrip l := by
  unfold pstrip
  have h1 : c ∈ l.dropWhile wsChar := mem_dropWhile_of_not wsChar c hc l h
  have h2 : c ∈ (l.dropWhile wsChar).reverse := List.mem_reverse.mpr h1
  have h3 := mem_dropWhile_of_not wsChar c hc _ h2
  exact List.mem_reverse.mpr h3

lemma containsC_iff_mem (c : Char) (l : List Char) : containsC c l = true ↔ c ∈ l := by
  induction l with
  | nil => simp [containsC]
  | cons a t ih =>
    by_cases h : a = c
    · subst h; simp [containsC]
    · rw [containsC, if_neg h, ih]
      simp only [List.mem_cons]
      constructor
      · exact Or.inr
      · rintro (rfl | hm)
        · exact absurd rfl h
        · exact hm

lemma pstrip_ne_nil_of_quote (l : List Char) (h : containsC '"' l = true) :
    pstrip l ≠ [] := by
  have hm : '"' ∈ l := (containsC_iff_mem _ _).mp h
  have : '"' ∈ pstrip l := mem_pstrip_of_not_ws '"' (by decide) l hm
  intro he
  rw [he] at this
  exact absurd this (List.not_mem_nil _)

lemma vm_names_eq_filterMap (ls : List (List Char)) :
    vm_names_of_lines ls
      = ls.filterMap (fun l => if containsC '"' l then some (firstQuoted l) else none) := by
  induction ls with
  | nil => rfl
  | cons l rest ih =>
    by_cases hq : containsC '"' l = true
    · have hne : pstrip l ≠ [] := pstrip_ne_nil_of_quote l hq
      have hkey := splitChar_getD_one '"' l
      rw [List.getD_eq_getElem?_getD] at hkey
      simp [vm_names_of_lines, hq, hne, ih, firstQuoted, hkey]
    · have hq' : containsC '"' l = false := by simpa using hq
      by_cases hb : pstrip l = [] <;>
        simp [vm_names_of_lines, hb, hq', ih]

lemma isPrefixOfL_iff (a : List Char) : ∀ b, isPrefixOfL a b = true ↔ a <+: b := by
  induction a with
  | nil => intro b; simp [isPrefixOfL]
  | cons x xs ih =>
    intro b
    cases b with
    | nil => simp [isPrefixOfL]
    | cons y ys =>
      by_cases h : x = y
      · subst h; simp [isPrefixOfL, ih, List.cons_prefix_cons]
      · simp [isPrefixOfL, h, List.cons_prefix_cons]

lemma isPrefixOfL_append_self (a t : List Char) : isPrefixOfL a (a ++ t) = true := by
  induction a with
  | nil => rfl
  | cons x xs ih => simp [isPrefixOfL, ih]

lemma sepV_eq : sepV = ['V', 'a', 'l', 'u', 'e', ':', ' '] := by decide

/-- `"Value: "` has no nontrivial self-overlap: an occurrence of it starting
strictly inside `p` in `p ++ sepV ++ s` forces an occurrence inside `p`. -/
lemma sepV_no_overlap (p s : List Char) (h : isPrefixOfL sepV (p ++ sepV ++ s) = true) :
    p = [] ∨ isPrefixOfL sepV p = true := by
  rw [isPrefixOfL_iff] at h
  rcases p with _ | ⟨c1, p⟩
  · exact Or.inl rfl
  rcases p with _ | ⟨c2, p⟩
  · exfalso; simp [sepV_eq, List.cons_prefix_cons] at h
  rcases p with _ | ⟨c3, p⟩
  · exfalso; simp [sepV_eq, List.cons_prefix_cons] at h
  rcases p with _ | ⟨c4, p⟩
  · exfalso; simp [sepV_eq, List.cons_prefix_cons] at h
  rcases p with _ | ⟨c5, p⟩
  · exfalso; simp [sepV_eq, List.cons_prefix_cons] at h
  rcases p with _ | ⟨c6, p⟩
  · exfalso; simp [sepV_eq, List.cons_prefix_cons] at h
  rcases p with _ | ⟨c7, p⟩
  · exfalso; simp [sepV_eq, List.cons_prefix_cons] at h
  · right
    rw [isPrefixOfL_iff]
    simp only [List.cons_append, List.append_assoc] at h
    rw [sepV_eq] at h ⊢
    simp only [List.cons_prefix_cons] at h ⊢
    obtain ⟨e1, e2, e3, e4, e5, e6, e7, -⟩ := h
    exact ⟨e1, e2, e3, e4, e5, e6, e7, List.nil_prefix⟩

lemma splitFirst_self_append (sep s : List Char) (h : sep ≠ []) :
    splitFirst sep (sep ++ s) = some ([], s) := by
  cases sep with
  | nil => exact absurd rfl h
  | cons a t =>
    have hpre := isPrefixOfL_append_self (a :: t) s
    rw [List.cons_append] at hpre
    rw [List.cons_append, splitFirst, if_pos hpre]
    have hd : List.drop (a :: t).length ((a :: t) ++ s) = s := List.drop_left _ _
    exact congrArg (fun x => some (([] : List Char), x)) hd

lemma splitFirst_append_sepV (p s : List Char) (hp : splitFirst sepV p = none) :
    splitFirst sepV (p ++ sepV ++ s) = some (p, s) := by
  induction p with
  | nil =>
    simp only [List.nil_append]
    exact splitFirst_self_append sepV s (by decide)
  | cons c p' ih =>
    have hx : isPrefixOfL sepV (c :: p') = false := by
      by_cases hb : isPrefixOfL sepV (c :: p') = true
      · rw [splitFirst, if_pos hb] at hp
        exact absurd hp (by simp)
      · simpa using hb
    have hp' : splitFirst sepV p' = none := by
      rw [splitFirst, if_neg (by simp [hx])] at hp
      cases hr : splitFirst sepV p' with
      | none => rfl
      | some v =>
        rw [hr] at hp
        cases v
        simp at hp
    have hneg : ¬ isPrefixOfL sepV (c :: (p' ++ (sepV ++ s))) = true := by
      intro hy
      have ho := sepV_no_overlap (c :: p') s (by simpa [List.append_assoc] using hy)
      rcases ho with h1 | h2
      · exact absurd h1 (by simp)
      · rw [hx] at h2
        exact absurd h2 (by simp)
    have hrec := ih hp'
    simp only [List.append_assoc] at hrec
    simp only [List.cons_append, List.append_assoc]
    rw [splitFirst, if_neg hneg, hrec]

lemma probeCommon_fst (env : LocEnv) (ps : List (List Char)) :
    (probeCommon env ps).1
      = ps.find? (fun c => env.pathExists c && decide (env.probe c = ProbeOutcome.ok)) := by
  induction ps with
  | nil => rfl
  | cons p rest ih =>
    by_cases he : env.pathExists p
    · cases ho : env.probe p <;> simp [probeCommon, he, ho, List.find?, ih]
    · have he' : env.pathExists p = false := by simpa using he
      simp [probeCommon, he', List.find?, ih]

lemma broadcast_trace (p vm user msg : List Char) (e : CmdOutcome) :
    (broadcast_message_to_vm (some p) vm user msg e).2
      = [Call.guestcontrolWall vm user msg] := by
  cases e <;> rfl

lemma get_vm_ip_trace (p vm : List Char) (e : CmdOutcome) :
    (get_vm_ip (some p) vm e).2 = [Call.guestpropGet vm] := by
  cases e with
  | completed c o er => by_cases h : c = 0 <;> simp [get_vm_ip, h]
  | timedOut => rfl
  | raised => rfl

lemma get_vm_status_trace (p vm : List Char) (e : CmdOutcome) :
    (get_vm_status (some p) vm e).2 = [Call.showvminfo vm] := by
  cases e with
  | completed c o er => by_cases h : c = 0 <;> simp [get_vm_status, h]
  | timedOut => rfl
  | raised => rfl

lemma start_vm_trace (p vm : List Char) (hd : Bool) (e : CmdOutcome) :
    (start_vm (some p) vm hd e).2 = [Call.startvm vm hd] := by
  cases e <;> rfl

lemma open_terminal_trace (p vm user : List Char) (e : CmdOutcome) (w : Bool) :
    (open_terminal (some p) vm user e w).2 = [Call.guestpropGet vm]
    ∨ ∃ ip, (open_terminal (some p) vm user e w).2
        = [Call.guestpropGet vm, Call.openTerminalWt vm user ip] := by
  unfold open_terminal
  cases hip : (get_vm_ip (some p) vm e).1 with
  | none => left; simp [hip, get_vm_ip_trace]
  | some ip => right; exact ⟨ip, by simp [hip, get_vm_ip_trace]⟩

lemma send_message_countP (p vm user pw msg : List Char) (ie se : CmdOutcome) :
    ((send_message_to_vm (some p) vm user pw msg ie se).2).countP isSshWall ≤ 1 := by
  unfold send_message_to_vm
  cases hip : (get_vm_ip (some p) vm ie).1 with
  | none => simp [hip, get_vm_ip_trace, List.countP_cons, List.countP_nil, isSshWall]
  | some ip =>
    cases se <;>
      simp [hip, get_vm_ip_trace, List.countP_append, List.countP_cons, List.countP_nil, isSshWall]

-- ------------------------------------------------------------------
-- Claim theorems
-- ------------------------------------------------------------------

/-- C2: with the control binary located, `stop_vm` always issues the in-guest
broadcast warning first and then the power-control command; the trace and the
operation's own result are literally independent of the broadcast outcome
`benv`, so a failed warning neither blocks the power command nor changes the
result (which is exactly the power command's success). -/
theorem c2_stop_warn_then_stop (p vm : List Char) (graceful : Bool) (benv penv : CmdOutcome) :
    stop_vm (some p) vm graceful benv penv
      = (powerOk penv,
         [Call.guestcontrolWall vm nhuL shutdownMsgL, Call.controlvm vm graceful]) := by
  cases benv <;> cases penv <;> simp [stop_vm, broadcast_message_to_vm, powerOk]

/-- C10: the pre-stop broadcast warning issued by `stop_vm` always uses the
fixed username `nhu` and the fixed text `System will be shutdown`, whatever
VM name, graceful flag or command outcomes are supplied. -/
theorem c10_stop_fixed_warning (p vm : List Char) (graceful : Bool) (benv penv : CmdOutcome) :
    (stop_vm (some p) vm graceful benv penv).2.head?
      = some (Call.guestcontrolWall vm nhuL shutdownMsgL)
    ∧ nhuL = "nhu".toList ∧ shutdownMsgL = "System will be shutdown".toList := by
  refine ⟨?_, rfl, rfl⟩
  cases benv <;> cases penv <;> simp [stop_vm, broadcast_message_to_vm]

/-- C6: `get_vm_ip`'s parser maps any output whose stripped form contains the
literal marker `No value set!` to the no-IP branch, which is a branch
distinct from the parse-failure branch; on any output of the shape
`p ++ "Value: " ++ s` (marker absent, no further occurrence of `"Value: "`
in `p` or `s`) it returns the substring following `"Value: "`, trimmed. -/
theorem c6_parse_guest_ip (t : List Char) :
    (occursB markerL (pstrip t) = true → parse_guest_ip t = IpParseOutcome.noIpAvailable)
    ∧ (∀ p s, pstrip t = p ++ sepV ++ s → splitFirst sepV p = none → splitFirst sepV s = none →
        occursB markerL (pstrip t) = false →
        parse_guest_ip t = IpParseOutcome.value (pstrip s))
    ∧ IpParseOutcome.noIpAvailable ≠ IpParseOutcome.parseFailure := by
  refine ⟨?_, ?_, by decide⟩
  · intro h
    simp [parse_guest_ip, h]
  · intro p s hdec hp hs hm
    have hocc : splitFirst sepV (pstrip t) = some (p, s) := by
      rw [hdec]
      exact splitFirst_append_sepV p s hp
    have hpiece : pieceAfterFirst sepV (pstrip t) = s := by
      rw [pieceAfterFirst, hocc]
      simp [hs]
    have hm' : (splitFirst markerL (pstrip t)).isSome = false := by
      simpa [occursB] using hm
    rw [parse_guest_ip]
    simp only [occursB, hm', Bool.false_eq_true, if_false, hocc, Option.isSome_some, if_true,
      hpiece]

/-- C6 witness: the marker text maps to the no-IP branch and
`Value: 10.0.2.15` parses to `10.0.2.15`. -/
theorem c6_parse_guest_ip_witness :
    parse_guest_ip ("No value set!".toList) = IpParseOutcome.noIpAvailable
    ∧ parse_guest_ip ("Value: 10.0.2.15".toList)
        = IpParseOutcome.value ("10.0.2.15".toList) := by
  constructor
  · exact (c6_parse_guest_ip ("No value set!".toList)).1 (by decide)
  · have h := (c6_parse_guest_ip ("Value: 10.0.2.15".toList)).2.1 []
      ("10.0.2.15".toList) (by decide) (by decide) (by decide) (by decide)
    rw [h]
    decide

/-- C8: on a successful list invocation, `list_vms` returns, in line order,
the first quote-delimited substring of every line containing a quote
character (blank and unquoted lines are skipped); on a non-zero exit, a
timeout or any other invocation error it returns the empty list. -/
theorem c8_list_vms (p out err : List Char) (code : Int) :
    ((list_vms (some p) (CmdOutcome.completed 0 out err)).1
        = (splitChar '\n' (pstrip out)).filterMap
            (fun l => if containsC '"' l then some (firstQuoted l) else none))
    ∧ (code ≠ 0 → (list_vms (some p) (CmdOutcome.completed code out err)).1 = [])
    ∧ (list_vms (some p) CmdOutcome.timedOut).1 = []
    ∧ (list_vms (some p) CmdOutcome.raised).1 = [] := by
  refine ⟨?_, ?_, rfl, rfl⟩
  · simp [list_vms, parse_vm_list, vm_names_eq_filterMap]
  · intro h
    simp [list_vms, h]

/-- C8 witness: the two-line example output parses to the two names in
order, and a failed invocation on the same output yields the empty list. -/
theorem c8_list_vms_witness :
    (list_vms (some pathNameL)
        (CmdOutcome.completed 0 ("\"web-01\" {u1}\n\"db-01\" {u2}".toList) [])).1
      = ["web-01".toList, "db-01".toList]
    ∧ (list_vms (some pathNameL)
        (CmdOutcome.completed 1 ("\"web-01\" {u1}\n\"db-01\" {u2}".toList) [])).1 = [] := by
  constructor
  · rw [(c8_list_vms pathNameL ("\"web-01\" {u1}\n\"db-01\" {u2}".toList) [] 1).1]
    decide
  · exact (c8_list_vms pathNameL ("\"web-01\" {u1}\n\"db-01\" {u2}".toList) [] 1).2.1
      (by decide)

/-- C9: with binary discovery failed (`vboxmanage_path` is `None`), every
VMManager operation returns its failure value with an empty invocation
trace: no external command is issued. -/
theorem c9_degraded_mode (vm user pw msg : List Char) (headless graceful wtOk : Bool)
    (e e1 e2 : CmdOutcome) (ie : InstEnv) :
    list_vms none e = ([], [])
    ∧ start_vm none vm headless e = (false, [])
    ∧ stop_vm none vm graceful e1 e2 = (false, [])
    ∧ get_vm_status none vm e = (none, [])
    ∧ get_vm_ip none vm e = (none, [])
    ∧ install_guest_additions none vm ie = (false, [])
    ∧ broadcast_message_to_vm none vm user msg e = (false, [])
    ∧ send_message_to_vm none vm user pw msg e1 e2 = (false, [])
    ∧ open_terminal none vm user e wtOk = (false, []) :=
  ⟨rfl, rfl, rfl, rfl, rfl, rfl, rfl, rfl, rfl⟩

/-- C1: the message action always attempts the guest-tooling broadcast first
(it is the head of the trace); when the broadcast succeeds nothing else is
invoked; the SSH fallback is invoked exactly when the broadcast failed and a
(truthy) password is present, and then exactly once; broadcast failure
without a password means overall failure with zero SSH attempts (the trace
is the single broadcast call); at most one ssh `wall` invocation ever
appears in the trace. -/
theorem c1_message_with_fallback (p vm user msg : List Char) (pw : Option (List Char))
    (bEnv ipEnv sshEnv : CmdOutcome) :
    ((message_with_fallback (some p) vm user msg pw bEnv ipEnv sshEnv).2.head?
        = some (Call.guestcontrolWall vm user msg))
    ∧ ((broadcast_message_to_vm (some p) vm user msg bEnv).1 = true →
        message_with_fallback (some p) vm user msg pw bEnv ipEnv sshEnv
          = (true, [Call.guestcontrolWall vm user msg]))
    ∧ ((broadcast_message_to_vm (some p) vm user msg bEnv).1 = false → pwTruthy pw = true →
        message_with_fallback (some p) vm user msg pw bEnv ipEnv sshEnv
          = ((send_message_to_vm (some p) vm user (pw.getD []) msg ipEnv sshEnv).1,
             Call.guestcontrolWall vm user msg
               :: (send_message_to_vm (some p) vm user (pw.getD []) msg ipEnv sshEnv).2))
    ∧ ((broadcast_message_to_vm (some p) vm user msg bEnv).1 = false → pwTruthy pw = false →
        message_with_fallback (some p) vm user msg pw bEnv ipEnv sshEnv
          = (false, [Call.guestcontrolWall vm user msg]))
    ∧ (message_with_fallback (some p) vm user msg pw bEnv ipEnv sshEnv).2.countP isSshWall
        ≤ 1 := by
  have htr := broadcast_trace p vm user msg bEnv
  refine ⟨?_, ?_, ?_, ?_, ?_⟩
  · unfold message_with_fallback
    cases hb : (broadcast_message_to_vm (some p) vm user msg bEnv).1
    · cases hpw : pwTruthy pw
      · simp [hb, hpw, htr]
      · simp [hb, hpw, htr]
    · simp [hb, htr]
  · intro hb
    unfold message_with_fallback
    simp [hb, htr]
  · intro hb hpw
    unfold message_with_fallback
    simp [hb, hpw, htr]
  · intro hb hpw
    unfold message_with_fallback
    simp [hb, hpw, htr]
  · unfold message_with_fallback
    cases hb : (broadcast_message_to_vm (some p) vm user msg bEnv).1
    · cases hpw : pwTruthy pw
      · simp [hb, hpw, htr, List.countP_cons, List.countP_nil, isSshWall]
      · have hcount := send_message_countP p vm user (pw.getD []) msg ipEnv sshEnv
        simp only [hb, hpw, Bool.false_eq_true, if_false, if_true, htr]
        simp [List.countP_append, List.countP_cons, List.countP_nil, isSshWall]
        omega
    · simp [hb, htr, List.countP_cons, List.countP_nil, isSshWall]

/-- C3: the start-and-open-terminal saga queries live status first (the
trace starts with the info command and contains exactly two status
queries); if the first status is `running` no start command is ever issued;
otherwise a headless start command is issued; if the second status query
does not report `running` the saga returns 1 with no terminal-open attempt
(no IP query and no terminal launch in the trace); only on a confirmed
`running` second status does it return 0 and attempt the terminal (the IP
query of `open_terminal` appears in the trace). -/
theorem c3_svo_saga (p vm user : List Char) (env : SvoEnv) :
    ((start_vm_and_open_a_terminal (some p) vm user env).2.head?
        = some (Call.showvminfo vm))
    ∧ ((get_vm_status (some p) vm env.s1).1 = some runningL →
        (start_vm_and_open_a_terminal (some p) vm user env).2.countP isStartCall = 0)
    ∧ ((get_vm_status (some p) vm env.s1).1 ≠ some runningL →
        Call.startvm vm true ∈ (start_vm_and_open_a_terminal (some p) vm user env).2)
    ∧ ((get_vm_status (some p) vm env.s2).1 ≠ some runningL →
        (start_vm_and_open_a_terminal (some p) vm user env).1 = 1
        ∧ (start_vm_and_open_a_terminal (some p) vm user env).2.countP isTermCall = 0
        ∧ (start_vm_and_open_a_terminal (some p) vm user env).2.countP isIpCall = 0)
    ∧ ((get_vm_status (some p) vm env.s2).1 = some runningL →
        (start_vm_and_open_a_terminal (some p) vm user env).1 = 0
        ∧ Call.guestpropGet vm ∈ (start_vm_and_open_a_terminal (some p) vm user env).2) := by
  have h1 := get_vm_status_trace p vm env.s1
  have h2 := get_vm_status_trace p vm env.s2
  have hst := start_vm_trace p vm true env.startO
  refine ⟨?_, ?_, ?_, ?_, ?_⟩
  · unfold start_vm_and_open_a_terminal
    by_cases hr2 : (get_vm_status (some p) vm env.s2).1 = some runningL <;>
      simp [hr2, h1, h2]
  · intro hr1
    unfold start_vm_and_open_a_terminal
    by_cases hr2 : (get_vm_status (some p) vm env.s2).1 = some runningL
    · rcases open_terminal_trace p vm user env.ipO env.wtOk with ht | ⟨ip, ht⟩ <;>
        simp [hr1, hr2, h1, h2, ht, List.countP_append, List.countP_cons, List.countP_nil,
          isStartCall]
    · simp [hr1, hr2, h1, h2, List.countP_append, List.countP_cons, List.countP_nil,
        isStartCall]
  · intro hr1
    unfold start_vm_and_open_a_terminal
    by_cases hr2 : (get_vm_status (some p) vm env.s2).1 = some runningL <;>
      simp [hr1, hr2, h1, h2, hst]
  · intro hr2
    unfold start_vm_and_open_a_terminal
    by_cases hr1 : (get_vm_status (some p) vm env.s1).1 = some runningL <;>
      simp [hr1, hr2, h1, h2, hst, List.countP_append, List.countP_cons, List.countP_nil,
        isTermCall, isIpCall]
  · intro hr2
    constructor
    · unfold start_vm_and_open_a_terminal
      simp [hr2]
    · unfold start_vm_and_open_a_terminal
      rcases open_terminal_trace p vm user env.ipO env.wtOk with ht | ⟨ip, ht⟩ <;>
        by_cases hr1 : (get_vm_status (some p) vm env.s1).1 = some runningL <;>
          simp [hr1, hr2, h1, h2, ht]

/-- C7 (code bug): at an oracle where both status queries report `running`,
the IP resolves and the terminal launches, `start_vm_and_open_a_terminal`
succeeds (returns 0), yet `main` treats the integer return as a boolean, so
the process exits with status 1; conversely, at the same oracle with the
second status query timing out, the saga fails (returns 1) and the process
exits with status 0 — the exit-code contract is inverted for `svo`. -/
theorem c7_svo_exit_inverted :
    (start_vm_and_open_a_terminal (some pathNameL) ("vm1".toList) ("alice".toList)
        { s1 := CmdOutcome.completed 0 ("VMState=\"running\"".toList) []
          startO := CmdOutcome.completed 0 [] []
          s2 := CmdOutcome.completed 0 ("VMState=\"running\"".toList) []
          ipO := CmdOutcome.completed 0 ("Value: 10.0.2.15".toList) []
          wtOk := true }).1 = 0
    ∧ svo_process_exit (some pathNameL) ("vm1".toList) ("alice".toList)
        { s1 := CmdOutcome.completed 0 ("VMState=\"running\"".toList) []
          startO := CmdOutcome.completed 0 [] []
          s2 := CmdOutcome.completed 0 ("VMState=\"running\"".toList) []
          ipO := CmdOutcome.completed 0 ("Value: 10.0.2.15".toList) []
          wtOk := true } = 1
    ∧ svo_process_exit (some pathNameL) ("vm1".toList) ("alice".toList)
        { s1 := CmdOutcome.completed 0 ("VMState=\"running\"".toList) []
          startO := CmdOutcome.completed 0 [] []
          s2 := CmdOutcome.timedOut
          ipO := CmdOutcome.completed 0 ("Value: 10.0.2.15".toList) []
          wtOk := true } = 0 := by
  refine ⟨?_, ?_, ?_⟩ <;> decide

/-- "The well-known path probe failed or was skipped": the disjunction under
which `find_vboxmanage` reaches the PATH probe. -/
def wkFails (env : LocEnv) : Prop :=
  env.pathExists vbox_path = false ∨ env.probe vbox_path ≠ ProbeOutcome.ok

/-- Environment refuting C5: the well-known path is absent, the PATH probe
times out, and `/usr/bin/VBoxManage` exists and probes fine. -/
def c5Env : LocEnv where
  pathExists := fun c => decide (c = usrBinL)
  probe := fun c =>
    if c = usrBinL then ProbeOutcome.ok
    else if c = pathNameL then ProbeOutcome.timeout
    else ProbeOutcome.nonzero

/-- C5 counterexample: in `c5Env` the search returns `None` (NotFound)
directly after the timed-out PATH probe — the search does not continue to
the remaining candidates although `/usr/bin/VBoxManage` is a viable common
candidate, and NotFound is produced without exhausting the candidates.
(The `except` clause of the PATH probe, line 107, does not catch
`TimeoutExpired`, so the timeout propagates to the outer handler.) -/
theorem c5_path_timeout_counterexample :
    (find_vboxmanage c5Env).1 = none
    ∧ (find_vboxmanage c5Env).2 = [Call.versionProbe pathNameL]
    ∧ c5Env.pathExists usrBinL = true
    ∧ c5Env.probe usrBinL = ProbeOutcome.ok
    ∧ usrBinL ∈ common_paths := by
  refine ⟨?_, ?_, ?_, ?_, ?_⟩ <;> decide

/-- C5 (amended): a probe of the well-known path or of a common path that
times out or exits non-zero only marks that candidate unusable and the
search continues; for the PATH-resolved candidate a non-zero exit (or a
missing binary) continues the search, but a timeout there aborts the whole
search with NotFound; apart from that case, the result is the first viable
candidate in order, and NotFound arises only by exhausting all candidates. -/
theorem c5_locate_amended (env : LocEnv) :
    (env.pathExists vbox_path = true → env.probe vbox_path = ProbeOutcome.ok →
        (find_vboxmanage env).1 = some vbox_path)
    ∧ (wkFails env → env.probe pathNameL = ProbeOutcome.ok →
        (find_vboxmanage env).1 = some pathNameL
        ∧ ∀ c, Call.versionProbe c ∈ (find_vboxmanage env).2 →
            c = vbox_path ∨ c = pathNameL)
    ∧ (wkFails env → env.probe pathNameL = ProbeOutcome.timeout →
        (find_vboxmanage env).1 = none)
    ∧ (wkFails env → env.probe pathNameL = ProbeOutcome.nonzero →
        (find_vboxmanage env).1
          = common_paths.find?
              (fun c => env.pathExists c && decide (env.probe c = ProbeOutcome.ok))) := by
  refine ⟨?_, ?_, ?_, ?_⟩
  · intro he hp
    simp [find_vboxmanage, he, hp]
  · intro hwk hp
    have hcond : (env.pathExists vbox_path && decide (env.probe vbox_path = ProbeOutcome.ok))
        = false := by
      rcases hwk with h | h <;> simp [h]
    constructor
    · simp [find_vboxmanage, hcond, hp]
    · intro c hc
      have htr : (find_vboxmanage env).2
          = (if env.pathExists vbox_path then [Call.versionProbe vbox_path] else [])
            ++ [Call.versionProbe pathNameL] := by
        simp [find_vboxmanage, hcond, hp]
      rw [htr] at hc
      by_cases he : env.pathExists vbox_path
      · simp only [he, if_true] at hc
        rcases List.mem_append.mp hc with h1 | h2
        · have h1' := List.mem_singleton.mp h1
          left
          injection h1'
        · have h2' := List.mem_singleton.mp h2
          right
          injection h2'
      · simp only [he, if_false] at hc
        have hc' : c = pathNameL := by simpa using hc
        exact Or.inr hc'
  · intro hwk hp
    have hcond : (env.pathExists vbox_path && decide (env.probe vbox_path = ProbeOutcome.ok))
        = false := by
      rcases hwk with h | h <;> simp [h]
    simp [find_vboxmanage, hcond, hp]
  · intro hwk hp
    have hcond : (env.pathExists vbox_path && decide (env.probe vbox_path = ProbeOutcome.ok))
        = false := by
      rcases hwk with h | h <;> simp [h]
    simp [find_vboxmanage, hcond, hp, probeCommon_fst]

/-- C5 witness for the amended behaviour: well-known path absent, PATH probe
non-zero, `/usr/bin/VBoxManage` viable — the search continues to it. -/
theorem c5_locate_amended_witness :
    (find_vboxmanage
        { pathExists := fun c => decide (c = usrBinL)
          probe := fun c => if c = usrBinL then ProbeOutcome.ok else ProbeOutcome.nonzero }).1
      = some usrBinL := by
  have h := (c5_locate_amended
      { pathExists := fun c => decide (c = usrBinL)
        probe := fun c =>
          if c = usrBinL then ProbeOutcome.ok else ProbeOutcome.nonzero }).2.2.2
    (Or.inl (by decide)) (by decide)
  rw [h]
  decide

/-- Environment refuting C4: the ISO is present, the info query succeeds
with an IDE controller line, the port-1 attach times out and the port-0
attach would succeed. -/
def c4Env : InstEnv where
  isoExists := true
  info := CmdOutcome.completed 0 ("storagecontrollername0=\"IDE\"".toList) []
  attach1 := CmdOutcome.timedOut
  attach0 := CmdOutcome.completed 0 [] []
  addDrive := CmdOutcome.completed 0 [] []
  attachRetry := CmdOutcome.completed 0 [] []

/-- C4 counterexample: in `c4Env` the saga fails with a trace that stops at
the port-1 attach — the port-0 attempt (which would have succeeded, see the
last conjunct) is never made and the empty-drive fallback is never invoked,
refuting "trying port 1 then port 0, accepting the first success".
(The loop of lines 362-381 catches only `CalledProcessError`; the
`TimeoutExpired` of the port-1 attach propagates to line 433.) -/
theorem c4_attach_timeout_counterexample :
    install_guest_additions (some pathNameL) ("vm1".toList) c4Env
      = (false,
         [Call.showvminfo ("vm1".toList),
          Call.storageattach ("vm1".toList) ("IDE".toList) port1 Medium.iso])
    ∧ c4Env.attach0 = CmdOutcome.completed 0 [] [] := by
  refine ⟨?_, rfl⟩ <;> decide

/-- C4 (amended): the saga fails fast with no invocation when the ISO is
absent; when the ISO is present, the info query succeeded and the
controller scan did not raise, the attach is attempted on port "1" then
port "0", where a *non-zero exit* continues to the next step and the first
success ends the saga successfully without the empty-drive fallback; only
when both ports fail with non-zero exits is the empty optical device
created on port "1" and the attach retried, overall success then requiring
the drive creation and the retried attach to succeed; an attach attempt
that times out (or raises otherwise) aborts the saga with failure at that
point. -/
theorem c4_install_amended (p vm out err ctl : List Char) (env : InstEnv) :
    (env.isoExists = false → install_guest_additions (some p) vm env = (false, []))
    ∧ (env.isoExists = true → env.info = CmdOutcome.completed 0 out err →
        controller_of out = some ctl →
        ((∀ o1 e1, env.attach1 = CmdOutcome.completed 0 o1 e1 →
            install_guest_additions (some p) vm env
              = (true, [Call.showvminfo vm, Call.storageattach vm ctl port1 Medium.iso]))
        ∧ (∀ c1 o1 e1 o0 e0, env.attach1 = CmdOutcome.completed c1 o1 e1 → c1 ≠ 0 →
            env.attach0 = CmdOutcome.completed 0 o0 e0 →
            install_guest_additions (some p) vm env
              = (true, [Call.showvminfo vm, Call.storageattach vm ctl port1 Medium.iso,
                        Call.storageattach vm ctl port0 Medium.iso]))
        ∧ (∀ c1 o1 e1 c0 o0 e0, env.attach1 = CmdOutcome.completed c1 o1 e1 → c1 ≠ 0 →
            env.attach0 = CmdOutcome.completed c0 o0 e0 → c0 ≠ 0 →
            Call.storageattach vm ctl port1 Medium.empty
                ∈ (install_guest_additions (some p) vm env).2
            ∧ ((install_guest_additions (some p) vm env).1 = true ↔
                (∃ oa ea, env.addDrive = CmdOutcome.completed 0 oa ea)
                ∧ ∃ og eg, env.attachRetry = CmdOutcome.completed 0 og eg))
        ∧ (env.attach1 = CmdOutcome.timedOut →
            install_guest_additions (some p) vm env
              = (false, [Call.showvminfo vm,
                         Call.storageattach vm ctl port1 Medium.iso]))
        ∧ (∀ c1 o1 e1, env.attach1 = CmdOutcome.completed c1 o1 e1 → c1 ≠ 0 →
            env.attach0 = CmdOutcome.timedOut →
            install_guest_additions (some p) vm env
              = (false, [Call.showvminfo vm, Call.storageattach vm ctl port1 Medium.iso,
                         Call.storageattach vm ctl port0 Medium.iso])))) := by
  constructor
  · intro hiso
    simp [install_guest_additions, hiso]
  · intro hiso hinfo hctl
    refine ⟨?_, ?_, ?_, ?_, ?_⟩
    · intro o1 e1 ha1
      simp [install_guest_additions, hiso, hinfo, hctl, ha1]
    · intro c1 o1 e1 o0 e0 ha1 hc1 ha0
      simp [install_guest_additions, hiso, hinfo, hctl, ha1, hc1, ha0]
    · intro c1 o1 e1 c0 o0 e0 ha1 hc1 ha0 hc0
      constructor
      · cases had : env.addDrive with
        | completed c3 oa ea =>
          by_cases hc3 : c3 = 0
          · subst hc3
            cases hrt : env.attachRetry with
            | completed c4 og eg =>
              by_cases hc4 : c4 = 0 <;>
                simp [install_guest_additions, hiso, hinfo, hctl, ha1, hc1, ha0, hc0, had,
                  hrt, hc4]
            | timedOut =>
              simp [install_guest_additions, hiso, hinfo, hctl, ha1, hc1, ha0, hc0, had, hrt]
            | raised =>
              simp [install_guest_additions, hiso, hinfo, hctl, ha1, hc1, ha0, hc0, had, hrt]
          · simp [install_guest_additions, hiso, hinfo, hctl, ha1, hc1, ha0, hc0, had, hc3]
        | timedOut =>
          simp [install_guest_additions, hiso, hinfo, hctl, ha1, hc1, ha0, hc0, had]
        | raised =>
          simp [install_guest_additions, hiso, hinfo, hctl, ha1, hc1, ha0, hc0, had]
      · cases had : env.addDrive with
        | completed c3 oa ea =>
          by_cases hc3 : c3 = 0
          · subst hc3
            cases hrt : env.attachRetry with
            | completed c4 og eg =>
              by_cases hc4 : c4 = 0
              · simp [install_guest_additions, hiso, hinfo, hctl, ha1, hc1, ha0, hc0, had,
                  hrt, hc4]
              · simp [install_guest_additions, hiso, hinfo, hctl, ha1, hc1, ha0, hc0, had,
                  hrt, hc4]
            | timedOut =>
              simp [install_guest_additions, hiso, hinfo, hctl, ha1, hc1, ha0, hc0, had, hrt]
            | raised =>
              simp [install_guest_additions, hiso, hinfo, hctl, ha1, hc1, ha0, hc0, had, hrt]
          · simp [install_guest_additions, hiso, hinfo, hctl, ha1, hc1, ha0, hc0, had, hc3]
        | timedOut =>
          simp [install_guest_additions, hiso, hinfo, hctl, ha1, hc1, ha0, hc0, had]
        | raised =>
          simp [install_guest_additions, hiso, hinfo, hctl, ha1, hc1, ha0, hc0, had]
    · intro ha1
      simp [install_guest_additions, hiso, hinfo, hctl, ha1]
    · intro c1 o1 e1 ha1 hc1 ha0
      simp [install_guest_additions, hiso, hinfo, hctl, ha1, hc1, ha0]

/-- C4 witness for the amended behaviour: port-1 attach exits non-zero,
port-0 attach succeeds — overall success with no fallback invocation. -/
theorem c4_install_amended_witness :
    install_guest_additions (some pathNameL) ("vm1".toList)
        { isoExists := true
          info := CmdOutcome.completed 0 ("storagecontrollername0=\"SATA\"".toList) []
          attach1 := CmdOutcome.completed 1 [] []
          attach0 := CmdOutcome.completed 0 [] []
          addDrive := CmdOutcome.raised
          attachRetry := CmdOutcome.raised }
      = (true,
         [Call.showvminfo ("vm1".toList),
          Call.storageattach ("vm1".toList) ("SATA".toList) port1 Medium.iso,
          Call.storageattach ("vm1".toList) ("SATA".toList) port0 Medium.iso]) := by
  have h := (c4_install_amended pathNameL ("vm1".toList)
      ("storagecontrollername0=\"SATA\"".toList) [] ("SATA".toList)
      { isoExists := true
        info := CmdOutcome.completed 0 ("storagecontrollername0=\"SATA\"".toList) []
        attach1 := CmdOutcome.completed 1 [] []
        attach0 := CmdOutcome.completed 0 [] []
        addDrive := CmdOutcome.raised
        attachRetry := CmdOutcome.raised }).2
    rfl rfl (by decide)
  exact h.2.1 1 [] [] [] [] rfl (by decide) rfl

end VmRunner
